import Mathlib

set_option maxRecDepth 100000

/-!
Verification of `setup_supabase_db.py`, a one-off provisioning script.

The script is embedded shallowly:
* credential extraction (`re.search` with the two fixed patterns) becomes
  `reSearch` over `List Char`;
* the fixed list of SQL statements becomes the string list `sql_scripts`
  (verbatim, including the surrounding whitespace of the triple-quoted
  Python literals);
* the observable run of the script (exit code, printed lines, RPC calls
  attempted, client constructions) becomes the pure function `runScript`,
  parameterised by a `World` describing the external outcomes (whether the
  client library imports, whether the client constructor succeeds, and
  which per-statement RPC calls succeed).

Apostrophes inside string literals are written with the escape `\x27`.
-/

namespace SupabaseSetup

/-- Character used as the quote delimiter in the two extraction patterns
(an ASCII apostrophe, written with a hex escape). -/
def qc : Char := '\x27'

/-- Literal part of the Python regex `const SUPABASE_URL = \x27([^\x27]+)\x27`. -/
def urlPat : List Char := "const SUPABASE_URL = \x27".toList

/-- Literal part of the Python regex `const SUPABASE_ANON_KEY = \x27([^\x27]+)\x27`. -/
def keyPat : List Char := "const SUPABASE_ANON_KEY = \x27".toList

/-- Attempt of the regex `PAT([^\x27]+)\x27` anchored at the head of `s`:
the fixed prefix `pat` must match, then the captured group is the maximal
run of non-quote characters, which must be non-empty and must be followed
by a closing quote inside `s`.  Greedy matching with backtracking agrees
with this: a shorter candidate run is always followed by a non-quote
character, so only the maximal run can be completed by the final quote. -/
def matchAt (pat s : List Char) : Option (List Char) :=
  if pat.isPrefixOf s then
    let rest := s.drop pat.length
    let v := rest.takeWhile (fun c => c != qc)
    if 0 < v.length ∧ v.length < rest.length then some v else none
  else none

/-- Model of Python `re.search` for the patterns above: try every position
left to right and return the captured group of the leftmost match. -/
def reSearch (pat : List Char) : List Char → Option (List Char)
  | [] => matchAt pat []
  | c :: t =>
    match matchAt pat (c :: t) with
    | some v => some v
    | none => reSearch pat t

/-- Lines 17-18 of the source: extraction of `supabase_url` from the
config file contents. -/
def extractUrl (config : List Char) : Option (List Char) :=
  reSearch urlPat config

/-- Lines 21-22 of the source: extraction of `supabase_key`. -/
def extractKey (config : List Char) : Option (List Char) :=
  reSearch keyPat config

/-- Python falsiness of an optional string: `None` and the empty string
are falsy, used by `if not supabase_url or not supabase_key`. -/
def pyFalsy : Option (List Char) → Bool
  | none => true
  | some v => v.isEmpty

/-- Condition of the validation check on line 24 of the source. -/
def credsFail (config : List Char) : Bool :=
  pyFalsy (extractUrl config) || pyFalsy (extractKey config)

/-- Model of Python `str.strip()` (for the whitespace characters that
occur in this script: spaces and newlines, all covered by
`Char.isWhitespace`). -/
def pyStrip (l : List Char) : List Char :=
  ((l.dropWhile Char.isWhitespace).reverse.dropWhile Char.isWhitespace).reverse

/-- Lines 32-95 of the source: the fixed list `sql_scripts`, verbatim.
It has eight entries: create-table, enable-RLS and two policies for
`user_profiles`, then the same four kinds for `wellness_checkins`. -/
def sql_scripts : List String :=
  [ "\n    CREATE TABLE IF NOT EXISTS public.user_profiles (\n      id UUID PRIMARY KEY REFERENCES auth.users(id) ON DELETE CASCADE,\n      name TEXT NOT NULL,\n      email TEXT NOT NULL UNIQUE,\n      created_at TIMESTAMP DEFAULT CURRENT_TIMESTAMP,\n      updated_at TIMESTAMP DEFAULT CURRENT_TIMESTAMP\n    );\n    ",
    "ALTER TABLE public.user_profiles ENABLE ROW LEVEL SECURITY;",
    "\n    CREATE POLICY \"Users can read own profile\" \n      ON public.user_profiles \n      FOR SELECT \n      USING (auth.uid() = id);\n    ",
    "\n    CREATE POLICY \"Users can update own profile\" \n      ON public.user_profiles \n      FOR UPDATE \n      USING (auth.uid() = id);\n    ",
    "\n    CREATE TABLE IF NOT EXISTS public.wellness_checkins (\n      id BIGSERIAL PRIMARY KEY,\n      user_id UUID NOT NULL REFERENCES public.user_profiles(id) ON DELETE CASCADE,\n      mood INTEGER CHECK (mood >= 1 AND mood <= 10),\n      stress_level TEXT CHECK (stress_level IN (\x27Low\x27, \x27Moderate\x27, \x27High\x27, \x27Very High\x27)),\n      sleep_hours DECIMAL(4,2),\n      journal_notes TEXT,\n      activities TEXT[],\n      created_at TIMESTAMP DEFAULT CURRENT_TIMESTAMP\n    );\n    ",
    "ALTER TABLE public.wellness_checkins ENABLE ROW LEVEL SECURITY;",
    "\n    CREATE POLICY \"Users can read own checkins\" \n      ON public.wellness_checkins \n      FOR SELECT \n      USING (auth.uid() = user_id);\n    ",
    "\n    CREATE POLICY \"Users can insert own checkins\" \n      ON public.wellness_checkins \n      FOR INSERT \n      WITH CHECK (auth.uid() = user_id);\n    " ]

/-- One attempted RPC call: the call on line 113 of the source passes the
RPC name and a one-key dictionary whose `sql` entry is the statement;
`sqlArg` is that entry. -/
structure RpcCall where
  rpcName : List Char
  sqlArg : List Char
deriving DecidableEq, Repr

/-- External outcomes the script depends on: whether the import of
`create_client` from the supabase package succeeds, whether
`create_client(url, key)` succeeds (with the exception text), and whether the
RPC call of step `i` (1-based, as in `enumerate(sql_scripts, 1)`)
succeeds. -/
structure World where
  importOk : Bool
  initOk : Bool
  initErr : List Char
  rpcOk : Nat → Bool

/-- Observable outcome of one run of the script: the process exit
status, the arguments of the `print` calls in order, the RPC calls
attempted in order, and how many times the client constructor was
called. -/
structure Outcome where
  exitCode : Nat
  prints : List (List Char)
  rpcCalls : List RpcCall
  clientInits : Nat
deriving DecidableEq, Repr

/-- Line 25 of the source. -/
def errNoCreds : List Char :=
  "❌ ERROR: Could not extract Supabase credentials from supabase-config.js".toList

/-- Line 28 of the source: the URL is printed in full. -/
def foundUrlMsg (url : List Char) : List Char :=
  "✅ Found Supabase URL: ".toList ++ url

/-- Line 29 of the source: the key is printed truncated by the slice
`supabase_key[:50]` followed by a literal ellipsis. -/
def foundKeyMsg (key : List Char) : List Char :=
  "✅ Found Supabase Key: ".toList ++ key.take 50 ++ "...".toList

/-- Line 104 of the source. -/
def creatingMsg : List Char := "\n🔄 Creating database tables...\n".toList

/-- Line 114 of the source. -/
def stepSuccessMsg (i : Nat) : List Char :=
  "✅ Step ".toList ++ (Nat.repr i).toList ++ ": Success".toList

/-- Line 119 of the source: the diagnostic printed inside the
per-statement failure handler (whose inner `except: pass` is dead code
because `print` does not raise). -/
def stepAltMsg (i : Nat) : List Char :=
  "⏳ Step ".toList ++ (Nat.repr i).toList ++ ": Attempting alternative execution...".toList

/-- Lines 123-128 of the source, printed after the loop. -/
def postLoopMsgs : List (List Char) :=
  [ "\n✅ Database setup initiated!".toList,
    "\n📌 IMPORTANT:".toList,
    "Some SQL statements may be executed via the Supabase dashboard.".toList,
    "Please check your Supabase console to verify:".toList,
    "  1. Go to \x27Table Editor\x27 and confirm tables are created".toList,
    "  2. Go to each table\x27s \x27Policies\x27 tab to verify RLS is enabled".toList ]

/-- Lines 131-136 of the source: the `except ImportError` handler. -/
def importFailMsgs : List (List Char) :=
  [ "\n⚠️  Supabase client import failed.".toList,
    "Please run the SQL manually in Supabase dashboard:".toList,
    "\n1. Go to Supabase Dashboard".toList,
    "2. Click \x27SQL Editor\x27 → \x27New Query\x27".toList,
    "3. Copy and paste the SQL from SUPABASE_SETUP.md".toList,
    "4. Click \x27Run\x27".toList ]

/-- Lines 139-141 of the source: the generic `except Exception` handler. -/
def initFailMsgs (e : List Char) : List (List Char) :=
  [ "\n⚠️  Error during setup: ".toList ++ e,
    "\nFallback: Run SQL manually in Supabase dashboard".toList,
    "See SUPABASE_SETUP.md for the SQL scripts.".toList ]

/-- Lines 144-148 of the source: the unconditional completion banner and
next-steps lines at the end of the script. -/
def completionMsgs : List (List Char) :=
  [ "\n✨ Setup complete! Your Supabase database is ready.".toList,
    "\n📖 Next steps:".toList,
    "1. Test with test-supabase.html".toList,
    "2. Update app.js with integration code from SUPABASE_INTEGRATION.md".toList,
    "3. Update LoginPageManager.init() to be async".toList ]

/-- Lines 28-29 of the source: the two credential lines printed after a
successful extraction. -/
def foundMsgs (config : List Char) : List (List Char) :=
  [ foundUrlMsg ((extractUrl config).getD []),
    foundKeyMsg ((extractKey config).getD []) ]

/-- One iteration of the loop on lines 107-121, print side: the statement
is stripped; an empty result is skipped by `continue`; otherwise either
the success line or the alternative-execution diagnostic is printed. -/
def stepPrint (w : World) (p : Nat × String) : Option (List Char) :=
  let s := pyStrip p.2.toList
  if s.isEmpty then none
  else if w.rpcOk p.1 then some (stepSuccessMsg p.1) else some (stepAltMsg p.1)

/-- One iteration of the loop on lines 107-121, RPC side: the call on
line 113 is attempted for every non-empty stripped statement, whether or
not it subsequently raises. -/
def stepCall (p : Nat × String) : Option RpcCall :=
  let s := pyStrip p.2.toList
  if s.isEmpty then none else some ⟨"execute_sql".toList, s⟩

/-- RPC calls attempted by a run that reaches the loop; this does not
depend on the extracted credentials or on the per-step outcomes. -/
def sqlCalls : List RpcCall :=
  (sql_scripts.enumFrom 1).filterMap stepCall

/-- Print lines produced by the loop. -/
def stepPrints (w : World) : List (List Char) :=
  (sql_scripts.enumFrom 1).filterMap (stepPrint w)

/-- Observable behaviour of the whole script, top to bottom:
validation and exit(1) on missing credentials (lines 24-26), the two
credential prints (lines 28-29), then the try block: `except
ImportError` with exit(1) (lines 130-137), `except Exception` around
the client constructor with exit(1) (lines 138-142), or the loop
followed by the post-loop prints and the completion banner with exit
status 0 (lines 104-128 and 144-148). -/
def runScript (config : List Char) (w : World) : Outcome :=
  if credsFail config then
    ⟨1, [errNoCreds], [], 0⟩
  else if w.importOk then
    if w.initOk then
      ⟨0, foundMsgs config ++ creatingMsg :: (stepPrints w ++ (postLoopMsgs ++ completionMsgs)),
        sqlCalls, 1⟩
    else
      ⟨1, foundMsgs config ++ initFailMsgs w.initErr, [], 1⟩
  else
    ⟨1, foundMsgs config ++ importFailMsgs, [], 0⟩

/-- Boolean contiguous-substring test on character lists. -/
def containsAux (sub : List Char) : List Char → Bool
  | [] => sub.isEmpty
  | c :: t => sub.isPrefixOf (c :: t) || containsAux sub t

/-- Boolean substring test between strings, used to locate a statement of
a given kind inside the fixed list. -/
def containsStr (sub s : String) : Bool := containsAux sub.toList s.toList

/-- Index of the first statement of `sql_scripts` containing `sub`. -/
def idxOfStmt (sub : String) : Option Nat :=
  sql_scripts.findIdx? (fun s => containsStr sub s)

/-- Config file with both assignments present and non-empty values. -/
def cfgGood : List Char :=
  "const SUPABASE_URL = \x27https://x.supabase.co\x27\nconst SUPABASE_ANON_KEY = \x27somekey123\x27".toList

/-- Config file whose anon key value is 51 characters long. -/
def cfg51 : List Char :=
  "const SUPABASE_URL = \x27https://x.supabase.co\x27\nconst SUPABASE_ANON_KEY = \x27abcdefghijklmnopqrstuvwxyz0123456789ABCDEFGHIJKLMNO\x27".toList

/-- Config file whose URL assignment has an empty quoted value. -/
def cfgEmptyUrl : List Char :=
  "const SUPABASE_URL = \x27\x27\nconst SUPABASE_ANON_KEY = \x27somekey123\x27".toList

/-- Config file whose key assignment has an empty quoted value. -/
def cfgEmptyKey : List Char :=
  "const SUPABASE_URL = \x27https://x.supabase.co\x27\nconst SUPABASE_ANON_KEY = \x27\x27".toList

/-- World where the client library imports, the client constructor
succeeds, and every RPC call raises. -/
def wAllFail : World := ⟨true, true, [], fun _ => false⟩

/-- World where everything succeeds. -/
def wAllOk : World := ⟨true, true, [], fun _ => true⟩

/-- World where the client library fails to import. -/
def wNoImport : World := ⟨false, true, [], fun _ => true⟩

/-! ## Helper lemmas about the regex model -/

theorem takeWhile_append_quote (u r : List Char) (h : ∀ c ∈ u, c ≠ qc) :
    (u ++ qc :: r).takeWhile (fun c => c != qc) = u := by
  induction u with
  | nil => simp
  | cons a t ih =>
    have ha : a ≠ qc := h a (by simp)
    simp only [List.cons_append, List.takeWhile_cons]
    simp [ha, ih (fun c hc => h c (by simp [hc]))]

theorem matchAt_append (pat u r : List Char) (hu : u ≠ []) (hq : ∀ c ∈ u, c ≠ qc) :
    matchAt pat (pat ++ (u ++ qc :: r)) = some u := by
  have hpre : pat.isPrefixOf (pat ++ (u ++ qc :: r)) = true :=
    List.isPrefixOf_iff_prefix.mpr (List.prefix_append _ _)
  have hpos : 0 < u.length := List.length_pos.mpr hu
  simp [matchAt, hpre, List.drop_left, takeWhile_append_quote u r hq, hpos]

theorem matchAt_of_not_prefixOf (pat s : List Char) (h : pat.isPrefixOf s = false) :
    matchAt pat s = none := by
  simp [matchAt, h]

theorem matchAt_pos (pat s v : List Char) (h : matchAt pat s = some v) : v ≠ [] := by
  simp only [matchAt] at h
  split at h
  · split at h
    · rename_i hc
      cases h
      exact List.length_pos.mp hc.1
    · cases h
  · cases h

theorem reSearch_of_matchAt (pat s v : List Char) (h : matchAt pat s = some v) :
    reSearch pat s = some v := by
  cases s with
  | nil => simpa [reSearch] using h
  | cons c t => simp [reSearch, h]

theorem reSearch_cons_none (pat : List Char) (c : Char) (t : List Char)
    (h : matchAt pat (c :: t) = none) : reSearch pat (c :: t) = reSearch pat t := by
  simp [reSearch, h]

theorem reSearch_of_first (pat u : List Char) :
    ∀ (i : Nat) (s : List Char), (∀ j, j < i → matchAt pat (s.drop j) = none) →
      matchAt pat (s.drop i) = some u → reSearch pat s = some u := by
  intro i
  induction i with
  | zero =>
    intro s _ hm
    exact reSearch_of_matchAt pat s u (by simpa using hm)
  | succ n ih =>
    intro s h hm
    cases s with
    | nil =>
      have h0 := h 0 (Nat.succ_pos n)
      simp only [List.drop_nil] at h0 hm
      rw [h0] at hm
      cases hm
    | cons c t =>
      have h0 : matchAt pat (c :: t) = none := by simpa using h 0 (Nat.succ_pos n)
      rw [reSearch_cons_none pat c t h0]
      apply ih t
      · intro j hj
        simpa using h (j + 1) (by omega)
      · simpa using hm

theorem reSearch_unique (pat u r s : List Char) (i : Nat)
    (hs : s.drop i = pat ++ (u ++ qc :: r))
    (hu : u ≠ []) (hq : ∀ c ∈ u, c ≠ qc)
    (huni : ∀ j, j < s.length → pat.isPrefixOf (s.drop j) = true → j = i) :
    reSearch pat s = some u := by
  have hilen : i < s.length := by
    by_contra hle
    push_neg at hle
    have hnil : s.drop i = [] := List.drop_eq_nil_iff.mpr hle
    rw [hs] at hnil
    simp at hnil
  apply reSearch_of_first pat u i s
  · intro j hj
    apply matchAt_of_not_prefixOf
    cases hb : pat.isPrefixOf (s.drop j) with
    | false => rfl
    | true => exact absurd (huni j (by omega) hb) (by omega)
  · rw [hs]
    exact matchAt_append pat u r hu hq

theorem reSearch_some_ne_nil (pat : List Char) :
    ∀ (s v : List Char), reSearch pat s = some v → v ≠ [] := by
  intro s
  induction s with
  | nil =>
    intro v h
    exact matchAt_pos pat [] v (by simpa [reSearch] using h)
  | cons c t ih =>
    intro v h
    cases hm : matchAt pat (c :: t) with
    | some v2 =>
      rw [reSearch_of_matchAt pat (c :: t) v2 hm] at h
      injection h with h2
      subst h2
      exact matchAt_pos pat (c :: t) _ hm
    | none =>
      rw [reSearch_cons_none pat c t hm] at h
      exact ih v h

/-! ## Helper lemmas about the run of the script -/

theorem runScript_badCreds (config : List Char) (w : World)
    (hc : credsFail config = true) :
    runScript config w = ⟨1, [errNoCreds], [], 0⟩ := by
  simp [runScript, hc]

theorem runScript_importFail (config : List Char) (w : World)
    (hc : credsFail config = false) (hi : w.importOk = false) :
    runScript config w = ⟨1, foundMsgs config ++ importFailMsgs, [], 0⟩ := by
  simp [runScript, hc, hi]

theorem runScript_initFail (config : List Char) (w : World)
    (hc : credsFail config = false) (hi : w.importOk = true) (hn : w.initOk = false) :
    runScript config w = ⟨1, foundMsgs config ++ initFailMsgs w.initErr, [], 1⟩ := by
  simp [runScript, hc, hi, hn]

theorem runScript_success (config : List Char) (w : World)
    (hc : credsFail config = false) (hi : w.importOk = true) (hn : w.initOk = true) :
    runScript config w
      = ⟨0, foundMsgs config ++ creatingMsg :: (stepPrints w ++ (postLoopMsgs ++ completionMsgs)),
          sqlCalls, 1⟩ := by
  simp [runScript, hc, hi, hn]

/-! ## Claims -/

/-- Claim C1, counterexample: the claim says the SQL Script Set contains
exactly 9 statement strings, but `sql_scripts` as written in the source
has exactly 8 entries, so its length is not 9. -/
theorem sql_scripts_not_nine : ¬ sql_scripts.length = 9 := by decide

/-- Claim C1, amended: the SQL Script Set (`sql_scripts`) always contains
exactly 8 statement strings, in a fixed order, and its contents are
independent of the extracted credentials: every run either attempts no
RPC call at all or attempts exactly the fixed sequence `sqlCalls`,
whatever the config contents and external outcomes are. -/
theorem sql_scripts_eight_fixed :
    sql_scripts.length = 8 ∧
    ∀ (config : List Char) (w : World),
      (runScript config w).rpcCalls = [] ∨ (runScript config w).rpcCalls = sqlCalls := by
  refine ⟨by decide, ?_⟩
  intro config w
  by_cases hc : credsFail config = true
  · rw [runScript_badCreds config w hc]
    left
    rfl
  · have hc2 : credsFail config = false := by simpa using hc
    by_cases hi : w.importOk = true
    · by_cases hn : w.initOk = true
      · rw [runScript_success config w hc2 hi hn]
        right
        rfl
      · have hn2 : w.initOk = false := by simpa using hn
        rw [runScript_initFail config w hc2 hi hn2]
        left
        rfl
    · have hi2 : w.importOk = false := by simpa using hi
      rw [runScript_importFail config w hc2 hi2]
      left
      rfl

/-- Claim C2: if the remote client imports and initializes successfully
and every per-statement RPC call raises, the run still reaches the end of
the script, exits with status 0, and prints the unconditional completion
banner. -/
theorem allRpcFail_exit_zero_banner (config : List Char) (w : World)
    (hc : credsFail config = false) (hi : w.importOk = true) (hn : w.initOk = true)
    (_hr : ∀ i, w.rpcOk i = false) :
    (runScript config w).exitCode = 0 ∧
    "\n✨ Setup complete! Your Supabase database is ready.".toList
      ∈ (runScript config w).prints := by
  rw [runScript_success config w hc hi hn]
  refine ⟨rfl, ?_⟩
  simp [completionMsgs]

/-- Witness for claim C2 at a concrete config and a world where every RPC
call raises. -/
theorem allRpcFail_exit_zero_banner_witness :
    (runScript cfgGood wAllFail).exitCode = 0 ∧
    "\n✨ Setup complete! Your Supabase database is ready.".toList
      ∈ (runScript cfgGood wAllFail).prints :=
  allRpcFail_exit_zero_banner cfgGood wAllFail (by decide) rfl rfl (fun _ => rfl)

/-- Claim C3: for every config whose contents fail to match the URL
pattern or the key pattern, the run prints the error diagnostic and exits
with status 1 before any remote work: the outcome records zero client
constructions and zero RPC calls. -/
theorem bad_config_exits_before_remote (config : List Char) (w : World)
    (h : extractUrl config = none ∨ extractKey config = none) :
    runScript config w = ⟨1, [errNoCreds], [], 0⟩ := by
  have hc : credsFail config = true := by
    cases h with
    | inl h2 => simp [credsFail, pyFalsy, h2]
    | inr h2 => simp [credsFail, pyFalsy, h2]
  exact runScript_badCreds config w hc

/-- Witness for claim C3 at the empty config file, where neither pattern
matches, with a world in which every remote step would succeed. -/
theorem bad_config_exits_before_remote_witness :
    runScript [] wAllOk = ⟨1, [errNoCreds], [], 0⟩ :=
  bad_config_exits_before_remote [] wAllOk (Or.inl (by decide))

/-- Claim C4: if importing the remote client library raises ImportError,
the run prints the manual-fallback instructions and exits with status 1,
and no SQL statement is attempted (zero RPC calls, and also zero client
constructions). -/
theorem importError_exits_one_no_rpc (config : List Char) (w : World)
    (hc : credsFail config = false) (hi : w.importOk = false) :
    (runScript config w).exitCode = 1 ∧
    (runScript config w).rpcCalls = [] ∧
    (runScript config w).clientInits = 0 ∧
    ∀ m ∈ importFailMsgs, m ∈ (runScript config w).prints := by
  rw [runScript_importFail config w hc hi]
  refine ⟨rfl, rfl, rfl, ?_⟩
  intro m hm
  exact List.mem_append_right _ hm

/-- Witness for claim C4 at a concrete config and a world where the
client library import fails. -/
theorem importError_exits_one_no_rpc_witness :
    (runScript cfgGood wNoImport).exitCode = 1 ∧
    (runScript cfgGood wNoImport).rpcCalls = [] ∧
    (runScript cfgGood wNoImport).clientInits = 0 ∧
    ∀ m ∈ importFailMsgs, m ∈ (runScript cfgGood wNoImport).prints :=
  importError_exits_one_no_rpc cfgGood wNoImport (by decide) rfl

/-- Claim C5: once the loop is reached, every statement in the list is
attempted exactly once, in list order, regardless of the per-statement
outcomes: the attempted calls are exactly the eight statements in order
(no retry, no re-ordering, no rollback), the exit status is 0 whatever
the per-statement outcomes were, and each failing statement produces the
attempting-alternative diagnostic. -/
theorem executor_attempts_all_in_order (config : List Char) (w : World)
    (hc : credsFail config = false) (hi : w.importOk = true) (hn : w.initOk = true) :
    (runScript config w).rpcCalls
      = sql_scripts.map (fun s => ⟨"execute_sql".toList, pyStrip s.toList⟩) ∧
    (runScript config w).exitCode = 0 ∧
    ∀ p ∈ sql_scripts.enumFrom 1, w.rpcOk p.1 = false →
      stepAltMsg p.1 ∈ (runScript config w).prints := by
  rw [runScript_success config w hc hi hn]
  refine ⟨?_, rfl, ?_⟩
  · show sqlCalls = _
    decide
  intro p hp hfail
  have hne : (pyStrip p.2.toList).isEmpty = false := by
    have hall : ∀ q ∈ sql_scripts.enumFrom 1, (pyStrip q.2.toList).isEmpty = false := by decide
    exact hall p hp
  have hne2 : ¬ pyStrip p.2.data = [] := by
    intro hnil
    rw [show p.2.toList = p.2.data from rfl, hnil] at hne
    simp at hne
  have hmem : stepAltMsg p.1 ∈ stepPrints w :=
    List.mem_filterMap.mpr ⟨p, hp, by simp [stepPrint, hne2, hfail]⟩
  exact List.mem_append_right _ (List.mem_cons_of_mem _ (List.mem_append_left _ hmem))

/-- Witness for claim C5 at a concrete config and a world where every RPC
call raises: all eight statements are attempted in order, the exit status
is 0, and step 3 prints the attempting-alternative diagnostic. -/
theorem executor_attempts_all_in_order_witness :
    (runScript cfgGood wAllFail).rpcCalls
      = sql_scripts.map (fun s => ⟨"execute_sql".toList, pyStrip s.toList⟩) ∧
    (runScript cfgGood wAllFail).exitCode = 0 ∧
    stepAltMsg 3 ∈ (runScript cfgGood wAllFail).prints := by
  obtain ⟨h1, h2, h3⟩ :=
    executor_attempts_all_in_order cfgGood wAllFail (by decide) rfl rfl
  exact ⟨h1, h2, h3 (3, sql_scripts.get ⟨2, by decide⟩) (by decide) rfl⟩

/-- Claim C7: after successful extraction the script prints the
discovered URL in full and the key truncated by the slice to its first
50 characters followed by a literal ellipsis, whatever happens later in
the run. -/
theorem prints_url_full_key_truncated (config : List Char) (w : World)
    (url key : List Char)
    (hu : extractUrl config = some url) (hk : extractKey config = some key) :
    ("✅ Found Supabase URL: ".toList ++ url) ∈ (runScript config w).prints ∧
    ("✅ Found Supabase Key: ".toList ++ key.take 50 ++ "...".toList)
      ∈ (runScript config w).prints := by
  have hune : url ≠ [] := reSearch_some_ne_nil urlPat config url hu
  have hkne : key ≠ [] := reSearch_some_ne_nil keyPat config key hk
  have hc : credsFail config = false := by
    simp [credsFail, pyFalsy, hu, hk, hune, hkne]
  have hf : foundMsgs config = [foundUrlMsg url, foundKeyMsg key] := by
    simp [foundMsgs, hu, hk]
  have hmem : ∀ tail : List (List Char),
      ("✅ Found Supabase URL: ".toList ++ url) ∈ foundMsgs config ++ tail ∧
      ("✅ Found Supabase Key: ".toList ++ key.take 50 ++ "...".toList)
        ∈ foundMsgs config ++ tail := by
    intro tail
    rw [hf]
    exact ⟨by simp [foundUrlMsg], by simp [foundKeyMsg]⟩
  by_cases hi : w.importOk = true
  · by_cases hn : w.initOk = true
    · rw [runScript_success config w hc hi hn]
      exact hmem _
    · have hn2 : w.initOk = false := by simpa using hn
      rw [runScript_initFail config w hc hi hn2]
      exact hmem _
  · have hi2 : w.importOk = false := by simpa using hi
    rw [runScript_importFail config w hc hi2]
    exact hmem _

/-- Witness for claim C7 at a config whose key value has 51 characters:
the printed preview is exactly the first 50 characters of the key
followed by the ellipsis, and the URL is printed in full. -/
theorem prints_url_full_key_truncated_witness :
    (("✅ Found Supabase URL: ".toList ++ "https://x.supabase.co".toList)
      ∈ (runScript cfg51 wAllOk).prints ∧
    ("✅ Found Supabase Key: ".toList
        ++ "abcdefghijklmnopqrstuvwxyz0123456789ABCDEFGHIJKLMNO".toList.take 50
        ++ "...".toList)
      ∈ (runScript cfg51 wAllOk).prints) ∧
    "abcdefghijklmnopqrstuvwxyz0123456789ABCDEFGHIJKLMNO".toList.length = 51 ∧
    "abcdefghijklmnopqrstuvwxyz0123456789ABCDEFGHIJKLMNO".toList.take 50
      = "abcdefghijklmnopqrstuvwxyz0123456789ABCDEFGHIJKLMN".toList :=
  ⟨prints_url_full_key_truncated cfg51 wAllOk
      "https://x.supabase.co".toList
      "abcdefghijklmnopqrstuvwxyz0123456789ABCDEFGHIJKLMNO".toList
      (by decide) (by decide),
    by decide, by decide⟩

/-- Claim C8, counterexample: the claim says each attempted statement is
passed verbatim as the `sql` parameter, but the code strips each
statement first (`sql.strip()` on line 108), so on a valid config with
every remote call succeeding the attempted calls differ from the
verbatim statement list (the multiline statements carry surrounding
whitespace in `sql_scripts`). -/
theorem rpc_calls_not_verbatim :
    ¬ ((runScript cfgGood wAllOk).rpcCalls
        = sql_scripts.map (fun s => ⟨"execute_sql".toList, s.toList⟩)) := by decide

/-- Claim C8, amended: for every statement attempted, the executor issues
exactly one remote call, named `execute_sql`, whose `sql` parameter is
the statement from the SQL Script Set with leading and trailing
whitespace stripped and otherwise unchanged — one call per statement, in
list order. -/
theorem rpc_calls_execute_sql_stripped (config : List Char) (w : World)
    (hc : credsFail config = false) (hi : w.importOk = true) (hn : w.initOk = true) :
    (runScript config w).rpcCalls
      = sql_scripts.map (fun s => ⟨"execute_sql".toList, pyStrip s.toList⟩) := by
  rw [runScript_success config w hc hi hn]
  show sqlCalls = _
  decide

/-- Witness for the amended claim C8 at a concrete config and a fully
successful world. -/
theorem rpc_calls_execute_sql_stripped_witness :
    (runScript cfgGood wAllOk).rpcCalls
      = sql_scripts.map (fun s => ⟨"execute_sql".toList, pyStrip s.toList⟩) :=
  rpc_calls_execute_sql_stripped cfgGood wAllOk (by decide) rfl rfl

/-- Claim C9: in the fixed statement list, every dependent statement
occurs after its prerequisite.  The profile create-table statement is at
index 0 and precedes the check-ins create-table statement at index 4,
whose text references the profile table key
(`REFERENCES public.user_profiles(id)`); the profile
enable-row-level-security statement is at index 1 and both profile
policy statements sit at the later indices 2 and 3; the check-ins
enable-row-level-security statement is at index 5 and both check-ins
policy statements sit at the later indices 6 and 7. -/
theorem sql_script_order_dependencies :
    (idxOfStmt "CREATE TABLE IF NOT EXISTS public.user_profiles" = some 0 ∧
      idxOfStmt "CREATE TABLE IF NOT EXISTS public.wellness_checkins" = some 4 ∧
      0 < 4) ∧
    containsStr "REFERENCES public.user_profiles(id)" (sql_scripts.getD 4 "") = true ∧
    (idxOfStmt "ALTER TABLE public.user_profiles ENABLE ROW LEVEL SECURITY" = some 1 ∧
      (sql_scripts.enum.filter
          (fun p => containsStr "CREATE POLICY" p.2
            && containsStr "public.user_profiles" p.2)).map Prod.fst = [2, 3] ∧
      1 < 2 ∧ 1 < 3) ∧
    (idxOfStmt "ALTER TABLE public.wellness_checkins ENABLE ROW LEVEL SECURITY" = some 5 ∧
      (sql_scripts.enum.filter
          (fun p => containsStr "CREATE POLICY" p.2
            && containsStr "public.wellness_checkins" p.2)).map Prod.fst = [6, 7] ∧
      5 < 6 ∧ 5 < 7) := by decide

/-- Claim C10: an assignment with an empty quoted value does not match
the extraction pattern (which requires at least one non-quote
character), so a config with an empty URL value or an empty key value is
a validation failure: the run prints the error diagnostic, exits with
status 1, constructs no client and attempts no RPC call. -/
theorem empty_value_validation_failure :
    extractUrl cfgEmptyUrl = none ∧
    extractKey cfgEmptyKey = none ∧
    (∀ w : World, runScript cfgEmptyUrl w = ⟨1, [errNoCreds], [], 0⟩) ∧
    (∀ w : World, runScript cfgEmptyKey w = ⟨1, [errNoCreds], [], 0⟩) := by
  refine ⟨by decide, by decide, ?_, ?_⟩
  · intro w
    exact runScript_badCreds cfgEmptyUrl w (by decide)
  · intro w
    exact runScript_badCreds cfgEmptyKey w (by decide)

/-- Claim C6: for every config file containing both literal assignments
`const SUPABASE_URL = ...` and `const SUPABASE_ANON_KEY = ...` with
non-empty quoted values free of single quotes — each assignment pattern
occurring at a single position `iu` resp. `ik`, which is what the claim
presupposes by speaking of "the" quoted substrings — the extractor
returns exactly the quoted substrings, byte for byte, as the URL and the
key. -/
theorem extractor_returns_quoted_substrings (config u k : List Char) (iu ik : Nat)
    (hu : ∃ r, config.drop iu = urlPat ++ (u ++ qc :: r))
    (hk : ∃ r, config.drop ik = keyPat ++ (k ++ qc :: r))
    (hune : u ≠ []) (huq : ∀ c ∈ u, c ≠ qc)
    (hkne : k ≠ []) (hkq : ∀ c ∈ k, c ≠ qc)
    (huuni : ∀ j, j < config.length → urlPat.isPrefixOf (config.drop j) = true → j = iu)
    (hkuni : ∀ j, j < config.length → keyPat.isPrefixOf (config.drop j) = true → j = ik) :
    extractUrl config = some u ∧ extractKey config = some k := by
  obtain ⟨r1, h1⟩ := hu
  obtain ⟨r2, h2⟩ := hk
  exact ⟨reSearch_unique urlPat u r1 config iu h1 hune huq huuni,
    reSearch_unique keyPat k r2 config ik h2 hkne hkq hkuni⟩

/-- Witness for claim C6 at a concrete two-line config file: the URL
pattern occurs only at position 0, the key pattern only at position 45,
and the extractor returns both quoted values byte for byte. -/
theorem extractor_returns_quoted_substrings_witness :
    extractUrl cfgGood = some "https://x.supabase.co".toList ∧
    extractKey cfgGood = some "somekey123".toList :=
  extractor_returns_quoted_substrings cfgGood
    "https://x.supabase.co".toList "somekey123".toList 0 45
    ⟨"\nconst SUPABASE_ANON_KEY = \x27somekey123\x27".toList, by decide⟩
    ⟨[], by decide⟩
    (by decide) (by decide) (by decide) (by decide)
    (by decide) (by decide)

end SupabaseSetup
